import Mathlib

/-!
Shallow embedding of the Portfolio Valuation Engine in `backend/server.py`
(a FastAPI net-worth tracker).  Python floats are modelled as `ℚ`; Python
`None` as `Option.none`; Python dict requests as structures whose fields are
`Option`-valued when the corresponding key may be absent.  The external
market-data provider (`yfinance`) is modelled by an abstract `Ticker` record
for the quote resolver, and by an abstract environment `quote : String → ℚ`
(the per-symbol result of `get_stock_price`) for the valuation endpoints.
A raised Python exception is modelled as `Except.error`.
-/

namespace NetWorth

/-- Asset model (`class Asset(BaseModel)`, server.py lines 13-20).
`type` is one of "stock", "etf", "super", "savings" in intended states but is
stored as an arbitrary string, exactly as in the source. -/
structure Asset where
  id : String
  name : String
  type : String
  symbol : Option String := none
  quantity : Option ℚ := none
  value : ℚ
  manual_value : Option ℚ := none
  deriving Repr, DecidableEq

/-- SavingsGoal model (server.py lines 22-27). -/
structure SavingsGoal where
  id : String
  name : String
  target_amount : ℚ
  current_amount : ℚ := 0
  deadline : Option String := none
  deriving Repr, DecidableEq

/-- NetWorthSnapshot model (server.py lines 29-36). -/
structure NetWorthSnapshot where
  id : String
  date : String
  total_stocks : ℚ
  total_etfs : ℚ
  total_super : ℚ
  total_savings : ℚ
  net_worth : ℚ
  deriving Repr, DecidableEq

/-- Portfolio aggregate (server.py lines 38-42). -/
structure Portfolio where
  user_id : String := "default"
  assets : List Asset := []
  savings_goals : List SavingsGoal := []
  net_worth_history : List NetWorthSnapshot := []
  deriving Repr, DecidableEq

/-- Python truthiness of an optional string (`if asset.symbol:`):
`None` and the empty string are falsy. -/
def truthyStr : Option String → Bool
  | some s => s ≠ ""
  | none => false

/-- Python truthiness of an optional number (`if asset.quantity:`):
`None` and `0.0` are falsy. -/
def truthyNum : Option ℚ → Bool
  | some q => q ≠ 0
  | none => false

/-- The `info` dict of a yfinance ticker, restricted to the two keys the code
reads (`currentPrice`, `regularMarketPrice`); a missing key is `none`. -/
structure TickerInfo where
  currentPrice : Option ℚ := none
  regularMarketPrice : Option ℚ := none
  deriving Repr, DecidableEq

/-- Abstract behaviour of `yf.Ticker(symbol)` for one call: the closing
prices returned by `ticker.history(period="1d")` (a raised exception is
`Except.error`), and the `ticker.info` dict (which may also raise). -/
structure Ticker where
  history : Except String (List ℚ)
  info : Except String TickerInfo

/-- The body of the `try:` block of `get_stock_price` (server.py lines 71-79):
take the last close of the recent history if any rows came back, otherwise
fall back to `info['currentPrice']`, then `info['regularMarketPrice']`, then
`0.0`.  Any provider exception propagates as `Except.error`. -/
def get_stock_price_attempt (ticker : Ticker) : Except String ℚ := do
  let data ← ticker.history
  match data.getLast? with
  | some close => pure close
  | none => do
      let info ← ticker.info
      pure (info.currentPrice.getD (info.regularMarketPrice.getD 0))

/-- `get_stock_price` (server.py lines 70-82): the `except` clause catches
every exception and returns the `Unavailable` sentinel `0.0`. -/
def get_stock_price (ticker : Ticker) : ℚ :=
  match get_stock_price_attempt ticker with
  | .ok price => price
  | .error _ => 0

/-- The per-asset price-refresh step shared verbatim by `get_portfolio_data`
(server.py lines 105-110) and `create_net_worth_snapshot` (lines 287-291):
for a stock/etf with a truthy symbol and no manual override, fetch the quote
and, when it is positive and the quantity is truthy, set
`value := price * quantity`; in every other case the asset is untouched. -/
def refreshAsset (quote : String → ℚ) (a : Asset) : Asset :=
  if truthyStr a.symbol ∧ (a.type = "stock" ∨ a.type = "etf") ∧ a.manual_value = none then
    let current_price := quote (a.symbol.getD "")
    if current_price > 0 ∧ truthyNum a.quantity then
      { a with value := current_price * a.quantity.getD 0 }
    else a
  else a

/-- Per-class total (`sum(a.value for a in portfolio.assets if a.type == t)`,
server.py lines 113-116 and 294-297). -/
def totalOf (t : String) (assets : List Asset) : ℚ :=
  ((assets.filter (fun a => a.type == t)).map Asset.value).sum

/-- The totals dict returned by `get_portfolio_data` and embedded in a
snapshot (server.py lines 112-117 and 293-298). -/
structure Totals where
  stocks : ℚ
  etfs : ℚ
  super : ℚ
  savings : ℚ
  net_worth : ℚ
  deriving Repr, DecidableEq

/-- Totals computation (server.py lines 112-117 / 293-298):
`net_worth = total_stocks + total_etfs + total_super + total_savings`. -/
def computeTotals (assets : List Asset) : Totals :=
  let total_stocks := totalOf "stock" assets
  let total_etfs := totalOf "etf" assets
  let total_super := totalOf "super" assets
  let total_savings := totalOf "savings" assets
  { stocks := total_stocks, etfs := total_etfs, super := total_super,
    savings := total_savings,
    net_worth := total_stocks + total_etfs + total_super + total_savings }

/-- Response of `GET /api/portfolio`. -/
structure PortfolioResponse where
  portfolio : Portfolio
  totals : Totals
  deriving Repr, DecidableEq

/-- `get_portfolio_data` (server.py lines 99-128): refresh every asset's
price in memory, compute the totals, and return both.  (The refreshed values
are not written back to the store by this endpoint.) -/
def get_portfolio_data (p : Portfolio) (quote : String → ℚ) : PortfolioResponse :=
  let assets := p.assets.map (refreshAsset quote)
  { portfolio := { p with assets := assets }, totals := computeTotals assets }

/-- Request body of `POST /api/assets`: `name` and `type` are accessed with
`[]` (required), the rest with `.get` (optional). -/
structure AssetCreateReq where
  name : String
  type : String
  symbol : Option String := none
  quantity : Option ℚ := none
  value : Option ℚ := none
  manual_value : Option ℚ := none
  deriving Repr, DecidableEq

/-- `add_asset` (server.py lines 130-165): start from
`asset_data.get("value", 0.0)`; when symbol and quantity are truthy and the
type is stock/etf, override with `price * quantity` if the quote is positive;
append the new asset.  `manual_value` is stored but never used here. -/
def add_asset (p : Portfolio) (asset_data : AssetCreateReq) (asset_id : String)
    (quote : String → ℚ) : Portfolio :=
  let value := asset_data.value.getD 0
  let value :=
    if truthyStr asset_data.symbol ∧ truthyNum asset_data.quantity then
      if asset_data.type = "stock" ∨ asset_data.type = "etf" then
        let current_price := quote (asset_data.symbol.getD "")
        if current_price > 0 then current_price * asset_data.quantity.getD 0 else value
      else value
    else value
  let new_asset : Asset :=
    { id := asset_id, name := asset_data.name, type := asset_data.type,
      symbol := asset_data.symbol, quantity := asset_data.quantity,
      value := value, manual_value := asset_data.manual_value }
  { p with assets := p.assets ++ [new_asset] }

/-- `delete_asset` (server.py lines 167-182): keep every asset whose id
differs; always answers success. -/
def delete_asset (p : Portfolio) (asset_id : String) : Portfolio :=
  { p with assets := p.assets.filter (fun a => a.id != asset_id) }

/-- Request body of `PUT /api/assets/{id}`: every key is read with `.get`,
so each field records presence; `symbol`, `quantity` and `manual_value` are
themselves nullable, hence the nested `Option`. -/
structure AssetUpdateReq where
  name : Option String := none
  type : Option String := none
  symbol : Option (Option String) := none
  quantity : Option (Option ℚ) := none
  manual_value : Option (Option ℚ) := none
  value : Option ℚ := none
  deriving Repr, DecidableEq

/-- The field-merge half of the update loop of `update_asset` (server.py
lines 192-196): each key present in the request replaces the asset's field
(`asset.name = asset_data.get("name", asset.name)` and so on). -/
def mergeAssetFields (asset_data : AssetUpdateReq) (a : Asset) : Asset :=
  { a with
    name := asset_data.name.getD a.name
    type := asset_data.type.getD a.type
    symbol := asset_data.symbol.getD a.symbol
    quantity := asset_data.quantity.getD a.quantity
    manual_value := asset_data.manual_value.getD a.manual_value }

/-- The body of the update loop of `update_asset` (server.py lines 190-207):
merge the supplied fields into the asset, then recompute `value`:
manual override first; else live pricing for a truthy-symbol truthy-quantity
stock/etf when the quote is positive; else `asset_data.get("value", value)`. -/
def applyAssetUpdate (quote : String → ℚ) (asset_data : AssetUpdateReq) (a : Asset) :
    Asset :=
  let a := mergeAssetFields asset_data a
  match a.manual_value with
  | some m => { a with value := m }
  | none =>
      if truthyStr a.symbol ∧ truthyNum a.quantity ∧ (a.type = "stock" ∨ a.type = "etf") then
        let current_price := quote (a.symbol.getD "")
        if current_price > 0 then { a with value := current_price * a.quantity.getD 0 }
        else a
      else { a with value := asset_data.value.getD a.value }

/-- Apply `f` to the first list element satisfying `p`, then stop — the
`for ... if ...: ...; break` pattern of `update_asset`/`update_savings_goal`. -/
def updateFirst {α : Type} (p : α → Bool) (f : α → α) : List α → List α
  | [] => []
  | x :: xs => if p x then f x :: xs else x :: updateFirst p f xs

/-- `update_asset` (server.py lines 184-216): update the first asset whose id
matches (no match: nothing happens); always answers success. -/
def update_asset (p : Portfolio) (asset_id : String) (asset_data : AssetUpdateReq)
    (quote : String → ℚ) : Portfolio :=
  { p with assets :=
      updateFirst (fun a => a.id == asset_id) (applyAssetUpdate quote asset_data) p.assets }

/-- Request body of `POST /api/savings-goals`. -/
structure GoalCreateReq where
  name : String
  target_amount : ℚ
  current_amount : Option ℚ := none
  deadline : Option String := none
  deriving Repr, DecidableEq

/-- `add_savings_goal` (server.py lines 218-241). -/
def add_savings_goal (p : Portfolio) (goal_data : GoalCreateReq) (goal_id : String) :
    Portfolio :=
  let new_goal : SavingsGoal :=
    { id := goal_id, name := goal_data.name, target_amount := goal_data.target_amount,
      current_amount := goal_data.current_amount.getD 0, deadline := goal_data.deadline }
  { p with savings_goals := p.savings_goals ++ [new_goal] }

/-- Request body of `PUT /api/savings-goals/{id}`: every key read with
`.get`, so each field records presence. -/
structure GoalUpdateReq where
  name : Option String := none
  target_amount : Option ℚ := none
  current_amount : Option ℚ := none
  deadline : Option (Option String) := none
  deriving Repr, DecidableEq

/-- The body of the update loop of `update_savings_goal` (server.py lines
248-254): each supplied field replaces the goal's, each absent field keeps
its prior value. -/
def applyGoalUpdate (goal_data : GoalUpdateReq) (g : SavingsGoal) : SavingsGoal :=
  { g with
    name := goal_data.name.getD g.name
    target_amount := goal_data.target_amount.getD g.target_amount
    current_amount := goal_data.current_amount.getD g.current_amount
    deadline := goal_data.deadline.getD g.deadline }

/-- `update_savings_goal` (server.py lines 243-263): update the first goal
whose id matches (no match: nothing happens); always answers success. -/
def update_savings_goal (p : Portfolio) (goal_id : String) (goal_data : GoalUpdateReq) :
    Portfolio :=
  { p with savings_goals :=
      updateFirst (fun g => g.id == goal_id) (applyGoalUpdate goal_data) p.savings_goals }

/-- `delete_savings_goal` (server.py lines 265-279). -/
def delete_savings_goal (p : Portfolio) (goal_id : String) : Portfolio :=
  { p with savings_goals := p.savings_goals.filter (fun g => g.id != goal_id) }

/-- `create_net_worth_snapshot` (server.py lines 281-328): refresh all asset
prices, compute totals, build the snapshot (its id and timestamp are
parameters of the embedding), append it to the history, and trim the history
to its last 100 entries (`net_worth_history[-100:]`) when it exceeds 100.
Returns the mutated portfolio and the snapshot. -/
def create_net_worth_snapshot (p : Portfolio) (quote : String → ℚ)
    (snapshot_id : String) (date : String) : Portfolio × NetWorthSnapshot :=
  let assets := p.assets.map (refreshAsset quote)
  let t := computeTotals assets
  let snapshot : NetWorthSnapshot :=
    { id := snapshot_id, date := date, total_stocks := t.stocks, total_etfs := t.etfs,
      total_super := t.super, total_savings := t.savings, net_worth := t.net_worth }
  let history := p.net_worth_history ++ [snapshot]
  let history := if history.length > 100 then history.drop (history.length - 100) else history
  ({ p with assets := assets, net_worth_history := history }, snapshot)

/-- The closed set of known asset classes (server.py lines 113-116). -/
def knownTypes : List String := ["stock", "etf", "super", "savings"]

/-- Quote environment in which every symbol is unavailable (price 0). -/
def noQuote : String → ℚ := fun _ => 0

/-- Quote environment in which every symbol resolves to price 10. -/
def tenQuote : String → ℚ := fun _ => 10

/-- Concrete AddAsset request carrying both a plain value and a manual
override. -/
def savingsWithOverrideReq : AssetCreateReq :=
  { name := "X", type := "savings", value := some 50, manual_value := some 100 }

/-- The asset `add_asset` stores for `savingsWithOverrideReq`. -/
def savingsWithOverrideAsset : Asset :=
  { id := "a1", name := "X", type := "savings", value := 50, manual_value := some 100 }

/-- Concrete stock asset holding a present but zero quantity. -/
def zeroQuantityStock : Asset :=
  { id := "a2", name := "Acme", type := "stock", symbol := some "A", quantity := some 0,
    value := 5 }

/-- Concrete stock asset with three units held. -/
def sampleStock : Asset :=
  { id := "a3", name := "Acme", type := "stock", symbol := some "A", quantity := some 3,
    value := 5 }

/-- Concrete etf asset with a manual override in place. -/
def sampleOverride : Asset :=
  { id := "a4", name := "Ovr", type := "etf", symbol := some "B", quantity := some 2,
    value := 7, manual_value := some 100 }

/-- Concrete savings goal. -/
def sampleGoal : SavingsGoal :=
  { id := "g1", name := "Trip", target_amount := 10, current_amount := 1,
    deadline := some "2026-01-01" }

/-- Concrete portfolio with one stock and one goal. -/
def samplePortfolio : Portfolio :=
  { assets := [sampleStock], savings_goals := [sampleGoal] }

/-- Snapshot with all figures zero, used to build concrete histories. -/
def zeroSnap (i : String) : NetWorthSnapshot :=
  { id := i, date := "d", total_stocks := 0, total_etfs := 0, total_super := 0,
    total_savings := 0, net_worth := 0 }

/-- Concrete portfolio whose history already holds 100 snapshots, the oldest
with id "a" and the other 99 with id "b". -/
def fullHistoryPortfolio : Portfolio :=
  { net_worth_history := zeroSnap "a" :: List.replicate 99 (zeroSnap "b") }

/-- Concrete ticker whose recent history has rows and whose info raises. -/
def sampleTicker : Ticker := { history := .ok [1, 2, 5], info := .error "boom" }

/-- Concrete asset of an unknown class. -/
def unknownAsset : Asset := { id := "u1", name := "Coin", type := "crypto", value := 42 }

/-- Concrete portfolio holding a known-class and an unknown-class asset. -/
def mixedPortfolio : Portfolio := { assets := [sampleStock, unknownAsset] }

/-- The same portfolio without the unknown-class asset. -/
def knownOnlyPortfolio : Portfolio := { assets := [sampleStock] }

/-- Concrete goal-update request setting only `current_amount`. -/
def goalCurrentReq : GoalUpdateReq := { current_amount := some 4 }

theorem refreshAsset_id (quote : String → ℚ) (a : Asset) :
    (refreshAsset quote a).id = a.id := by
  unfold refreshAsset
  split
  · dsimp only
    split <;> rfl
  · rfl

theorem refreshAsset_name (quote : String → ℚ) (a : Asset) :
    (refreshAsset quote a).name = a.name := by
  unfold refreshAsset
  split
  · dsimp only
    split <;> rfl
  · rfl

theorem refreshAsset_type (quote : String → ℚ) (a : Asset) :
    (refreshAsset quote a).type = a.type := by
  unfold refreshAsset
  split
  · dsimp only
    split <;> rfl
  · rfl

theorem updateFirst_no_match {α : Type} (p : α → Bool) (f : α → α) (l : List α)
    (h : ∀ x ∈ l, p x = false) : updateFirst p f l = l := by
  induction l with
  | nil => rfl
  | cons x xs ih =>
    simp [updateFirst, h x (List.mem_cons_self x xs),
      ih (fun y hy => h y (List.mem_cons_of_mem x hy))]

theorem updateFirst_append {α : Type} (p : α → Bool) (f : α → α) (pre post : List α)
    (x : α) (hpre : ∀ y ∈ pre, p y = false) (hx : p x = true) :
    updateFirst p f (pre ++ x :: post) = pre ++ f x :: post := by
  induction pre with
  | nil => simp [updateFirst, hx]
  | cons y ys ih =>
    simp [updateFirst, hpre y (List.mem_cons_self y ys),
      ih (fun z hz => hpre z (List.mem_cons_of_mem y hz))]

theorem totalOf_append (t : String) (l1 l2 : List Asset) :
    totalOf t (l1 ++ l2) = totalOf t l1 + totalOf t l2 := by
  simp [totalOf, List.filter_append]

theorem totalOf_cons (t : String) (a : Asset) (l : List Asset) :
    totalOf t (a :: l) = (if a.type = t then a.value else 0) + totalOf t l := by
  by_cases h : a.type = t <;> simp [totalOf, List.filter_cons, h]

theorem totalOf_cons_of_ne (t : String) (a : Asset) (l : List Asset) (h : a.type ≠ t) :
    totalOf t (a :: l) = totalOf t l := by
  simp [totalOf, List.filter_cons, h]

theorem totalOf_cons_of_eq (t : String) (a : Asset) (l : List Asset) (h : a.type = t) :
    totalOf t (a :: l) = a.value + totalOf t l := by
  simp [totalOf, List.filter_cons, h]

theorem known_sum (l : List Asset) :
    totalOf "stock" l + totalOf "etf" l + totalOf "super" l + totalOf "savings" l =
      ((l.filter (fun a => decide (a.type ∈ knownTypes))).map Asset.value).sum := by
  induction l with
  | nil => simp [totalOf]
  | cons a l ih =>
    by_cases h : a.type ∈ knownTypes
    · rw [List.filter_cons_of_pos (by simpa using h), List.map_cons, List.sum_cons]
      rcases (by simpa [knownTypes] using h :
        a.type = "stock" ∨ a.type = "etf" ∨ a.type = "super" ∨ a.type = "savings") with
        h1 | h1 | h1 | h1
      · rw [totalOf_cons_of_eq "stock" a l h1,
          totalOf_cons_of_ne "etf" a l (by rw [h1]; decide),
          totalOf_cons_of_ne "super" a l (by rw [h1]; decide),
          totalOf_cons_of_ne "savings" a l (by rw [h1]; decide)]
        linarith [ih]
      · rw [totalOf_cons_of_ne "stock" a l (by rw [h1]; decide),
          totalOf_cons_of_eq "etf" a l h1,
          totalOf_cons_of_ne "super" a l (by rw [h1]; decide),
          totalOf_cons_of_ne "savings" a l (by rw [h1]; decide)]
        linarith [ih]
      · rw [totalOf_cons_of_ne "stock" a l (by rw [h1]; decide),
          totalOf_cons_of_ne "etf" a l (by rw [h1]; decide),
          totalOf_cons_of_eq "super" a l h1,
          totalOf_cons_of_ne "savings" a l (by rw [h1]; decide)]
        linarith [ih]
      · rw [totalOf_cons_of_ne "stock" a l (by rw [h1]; decide),
          totalOf_cons_of_ne "etf" a l (by rw [h1]; decide),
          totalOf_cons_of_ne "super" a l (by rw [h1]; decide),
          totalOf_cons_of_eq "savings" a l h1]
        linarith [ih]
    · rw [List.filter_cons_of_neg (by simpa using h),
        totalOf_cons_of_ne "stock" a l (fun hc => h (by simp [knownTypes, hc])),
        totalOf_cons_of_ne "etf" a l (fun hc => h (by simp [knownTypes, hc])),
        totalOf_cons_of_ne "super" a l (fun hc => h (by simp [knownTypes, hc])),
        totalOf_cons_of_ne "savings" a l (fun hc => h (by simp [knownTypes, hc]))]
      exact ih

theorem get_stock_price_of_error (t : Ticker) (e : String)
    (h : get_stock_price_attempt t = .error e) : get_stock_price t = 0 := by
  simp [get_stock_price, h]

theorem get_stock_price_attempt_of_last (t : Ticker) (data : List ℚ) (close : ℚ)
    (h1 : t.history = .ok data) (h2 : data.getLast? = some close) :
    get_stock_price_attempt t = .ok close := by
  simp [get_stock_price_attempt, h1, h2, Bind.bind, Except.bind, pure, Except.pure]

theorem get_stock_price_attempt_of_empty (t : Ticker) (i : TickerInfo)
    (h1 : t.history = .ok []) (h2 : t.info = .ok i) :
    get_stock_price_attempt t = .ok (i.currentPrice.getD (i.regularMarketPrice.getD 0)) := by
  simp [get_stock_price_attempt, h1, h2, Bind.bind, Except.bind, pure, Except.pure]

theorem get_stock_price_attempt_of_hist_error (t : Ticker) (e : String)
    (h1 : t.history = .error e) : get_stock_price_attempt t = .error e := by
  simp [get_stock_price_attempt, h1, Bind.bind, Except.bind]

theorem get_stock_price_attempt_of_info_error (t : Ticker) (e : String)
    (h1 : t.history = .ok []) (h2 : t.info = .error e) :
    get_stock_price_attempt t = .error e := by
  simp [get_stock_price_attempt, h1, h2, Bind.bind, Except.bind]

/-- C4: for every snapshot produced by `create_net_worth_snapshot`, the
`net_worth` field equals the sum of the four per-class totals, and each total
is the per-class sum of the post-valuation asset values (the portfolio's
assets after the refresh pass of the same call). -/
theorem C4_aggregation_consistency (p : Portfolio) (quote : String → ℚ)
    (sid date : String) :
    (create_net_worth_snapshot p quote sid date).2.net_worth =
        (create_net_worth_snapshot p quote sid date).2.total_stocks +
        (create_net_worth_snapshot p quote sid date).2.total_etfs +
        (create_net_worth_snapshot p quote sid date).2.total_super +
        (create_net_worth_snapshot p quote sid date).2.total_savings
    ∧ (create_net_worth_snapshot p quote sid date).2.total_stocks =
        totalOf "stock" (create_net_worth_snapshot p quote sid date).1.assets
    ∧ (create_net_worth_snapshot p quote sid date).2.total_etfs =
        totalOf "etf" (create_net_worth_snapshot p quote sid date).1.assets
    ∧ (create_net_worth_snapshot p quote sid date).2.total_super =
        totalOf "super" (create_net_worth_snapshot p quote sid date).1.assets
    ∧ (create_net_worth_snapshot p quote sid date).2.total_savings =
        totalOf "savings" (create_net_worth_snapshot p quote sid date).1.assets
    ∧ (create_net_worth_snapshot p quote sid date).1.assets =
        p.assets.map (refreshAsset quote) :=
  ⟨rfl, rfl, rfl, rfl, rfl, rfl⟩

/-- C6: CRUD round-trip.  After `add_asset`, the portfolio returned by
`get_portfolio_data` contains an asset with the created id, name and class;
after `delete_asset` with that id, the portfolio returned by
`get_portfolio_data` contains no asset with that id. -/
theorem C6_crud_round_trip (p : Portfolio) (r : AssetCreateReq) (aid : String)
    (quote quote2 quote3 : String → ℚ) :
    ((get_portfolio_data (add_asset p r aid quote) quote2).portfolio.assets.any
        (fun a => a.id == aid && a.name == r.name && a.type == r.type)) = true
    ∧ ((get_portfolio_data (delete_asset (add_asset p r aid quote) aid) quote3).portfolio.assets.all
        (fun a => a.id != aid)) = true := by
  constructor
  · rw [List.any_eq_true]
    refine ⟨_, List.mem_map_of_mem (refreshAsset quote2)
      (List.mem_append_right p.assets (List.mem_cons_self _ _)), ?_⟩
    simp [refreshAsset_id, refreshAsset_name, refreshAsset_type]
  · rw [List.all_eq_true]
    intro a ha
    obtain ⟨b, hb, rfl⟩ := List.mem_map.mp ha
    have hb2 := (List.mem_filter.mp hb).2
    rw [bne_iff_ne] at hb2 ⊢
    rw [refreshAsset_id]
    exact hb2

/-- C7: silent no-op on missing id.  When no asset has id `aid` and no goal
has id `gid`, `update_asset`, `delete_asset`, `update_savings_goal` and
`delete_savings_goal` leave the portfolio exactly unchanged (and, in the
embedding, they are total functions: the endpoints answer success
unconditionally). -/
theorem C7_silent_noop (p : Portfolio) (aid gid : String) (ur : AssetUpdateReq)
    (gur : GoalUpdateReq) (quote : String → ℚ)
    (ha : ∀ a ∈ p.assets, a.id ≠ aid) (hg : ∀ g ∈ p.savings_goals, g.id ≠ gid) :
    update_asset p aid ur quote = p ∧ delete_asset p aid = p
    ∧ update_savings_goal p gid gur = p ∧ delete_savings_goal p gid = p := by
  refine ⟨?_, ?_, ?_, ?_⟩
  · unfold update_asset
    rw [updateFirst_no_match _ _ _ (fun x hx => by simpa using ha x hx)]
  · unfold delete_asset
    rw [List.filter_eq_self.mpr (fun x hx => by simpa using ha x hx)]
  · unfold update_savings_goal
    rw [updateFirst_no_match _ _ _ (fun x hx => by simpa using hg x hx)]
  · unfold delete_savings_goal
    rw [List.filter_eq_self.mpr (fun x hx => by simpa using hg x hx)]

/-- C7 witness: on a concrete portfolio holding asset "a3" and goal "g1",
the four operations with the unmatched id "zz" return it unchanged. -/
theorem C7_witness :
    update_asset samplePortfolio "zz" {} noQuote = samplePortfolio
    ∧ delete_asset samplePortfolio "zz" = samplePortfolio
    ∧ update_savings_goal samplePortfolio "zz" {} = samplePortfolio
    ∧ delete_savings_goal samplePortfolio "zz" = samplePortfolio :=
  C7_silent_noop samplePortfolio "zz" "zz" {} {} noQuote (by decide) (by decide)

/-- C8: quote resolver totality and fallback order.  `get_stock_price` maps
every provider outcome to a plain price: an erroring attempt degrades to the
`Unavailable` sentinel 0; when the recent history has rows the result is its
last close, independently of the `info` lookup; only when the history is
empty is `info` consulted (`currentPrice`, then `regularMarketPrice`, then
0); and a throwing history or info yields 0 rather than an error. -/
theorem C8_quote_resolver (t t2 : Ticker) :
    (∀ e, get_stock_price_attempt t = .error e → get_stock_price t = 0)
    ∧ (∀ data close, t.history = .ok data → data.getLast? = some close →
        get_stock_price t = close)
    ∧ (∀ data close, t.history = .ok data → data.getLast? = some close →
        t2.history = t.history → get_stock_price t2 = get_stock_price t)
    ∧ (∀ i, t.history = .ok [] → t.info = .ok i →
        get_stock_price t = i.currentPrice.getD (i.regularMarketPrice.getD 0))
    ∧ (∀ e, t.history = .error e → get_stock_price t = 0)
    ∧ (∀ e, t.history = .ok [] → t.info = .error e → get_stock_price t = 0) := by
  refine ⟨?_, ?_, ?_, ?_, ?_, ?_⟩
  · intro e h
    exact get_stock_price_of_error t e h
  · intro data close h1 h2
    simp [get_stock_price, get_stock_price_attempt_of_last t data close h1 h2]
  · intro data close h1 h2 h3
    rw [show get_stock_price t2 = close from by
      simp [get_stock_price, get_stock_price_attempt_of_last t2 data close (h3.trans h1) h2]]
    rw [show get_stock_price t = close from by
      simp [get_stock_price, get_stock_price_attempt_of_last t data close h1 h2]]
  · intro i h1 h2
    simp [get_stock_price, get_stock_price_attempt_of_empty t i h1 h2]
  · intro e h1
    simp [get_stock_price, get_stock_price_attempt_of_hist_error t e h1]
  · intro e h1 h2
    simp [get_stock_price, get_stock_price_attempt_of_info_error t e h1 h2]

/-- C8 witness: on a ticker whose recent history ends at close 5 and whose
info lookup raises, the resolver returns 5. -/
theorem C8_witness : get_stock_price sampleTicker = 5 :=
  (C8_quote_resolver sampleTicker sampleTicker).2.1 [1, 2, 5] 5 rfl rfl

theorem applyAssetUpdate_manual_value (quote : String → ℚ) (r : AssetUpdateReq)
    (a : Asset) :
    (applyAssetUpdate quote r a).manual_value = (mergeAssetFields r a).manual_value := by
  cases hb : (mergeAssetFields r a).manual_value with
  | some m => simp [applyAssetUpdate, hb]
  | none =>
    simp only [applyAssetUpdate, hb]
    split
    · split <;> simp [hb]
    · simp [hb]

theorem applyAssetUpdate_value_of_manual (quote : String → ℚ) (r : AssetUpdateReq)
    (a : Asset) (m : ℚ) (h : (mergeAssetFields r a).manual_value = some m) :
    (applyAssetUpdate quote r a).value = m := by
  simp [applyAssetUpdate, h]

/-- C1 (amended): after `update_asset` reaches an asset, if the resulting
manual override is set then the stored value equals it; `get_portfolio_data`
and `create_net_worth_snapshot` never touch the stored value of an asset
whose manual override is set (they skip the quote lookup, leaving the value
as stored, which need not equal the override); `add_asset` is not covered
because it ignores `manual_value` when computing the initial value. -/
theorem C1_override_precedence (p : Portfolio) (quote : String → ℚ)
    (r : AssetUpdateReq) (a : Asset) (aid sid date : String) :
    (∀ m : ℚ, (applyAssetUpdate quote r a).manual_value = some m →
        (applyAssetUpdate quote r a).value = m)
    ∧ (∀ m : ℚ, a.manual_value = some m → refreshAsset quote a = a)
    ∧ (get_portfolio_data p quote).portfolio.assets = p.assets.map (refreshAsset quote)
    ∧ (create_net_worth_snapshot p quote sid date).1.assets =
        p.assets.map (refreshAsset quote)
    ∧ (update_asset p aid r quote).assets =
        updateFirst (fun x => x.id == aid) (applyAssetUpdate quote r) p.assets := by
  refine ⟨?_, ?_, rfl, rfl, rfl⟩
  · intro m hm
    rw [applyAssetUpdate_manual_value] at hm
    exact applyAssetUpdate_value_of_manual quote r a m hm
  · intro m hm
    simp [refreshAsset, hm]

/-- C1 counterexample: `add_asset` with a request carrying
`manual_value = 100` and `value = 50` stores an asset whose value is 50, not
100, so the claim's AddAsset case is false. -/
theorem C1_counterexample :
    ¬ (∀ a ∈ (add_asset {} savingsWithOverrideReq "a1" noQuote).assets,
        ∀ m : ℚ, a.manual_value = some m → a.value = m) := by
  intro h
  have hmem : savingsWithOverrideAsset ∈
      (add_asset {} savingsWithOverrideReq "a1" noQuote).assets := by decide
  have hv := h savingsWithOverrideAsset hmem 100 rfl
  norm_num [savingsWithOverrideAsset] at hv

/-- C1 witness: a concrete update of an asset with override 100 stores
value 100. -/
theorem C1_witness : (applyAssetUpdate noQuote {} sampleOverride).value = 100 :=
  (C1_override_precedence samplePortfolio noQuote {} sampleOverride "a4" "s" "d").1
    100 rfl

/-- C2 (amended): for a stock/etf asset with no manual override, a non-empty
symbol, a present and NONZERO quantity, and a positive quote, the valuation
pass (`refreshAsset`, used by both `get_portfolio_data` and
`create_net_worth_snapshot`) and the recompute branch of `update_asset` set
`value := price * quantity`.  (A present quantity of exactly 0 is falsy in
the source and skips the update.) -/
theorem C2_pricing_formula (p : Portfolio) (quote : String → ℚ) (a : Asset)
    (s : String) (q : ℚ) (sid date : String)
    (hty : a.type = "stock" ∨ a.type = "etf") (hm : a.manual_value = none)
    (hs : a.symbol = some s) (hs2 : s ≠ "") (hq : a.quantity = some q) (hq2 : q ≠ 0)
    (hp : 0 < quote s) :
    (refreshAsset quote a).value = quote s * q
    ∧ (applyAssetUpdate quote {} a).value = quote s * q
    ∧ (get_portfolio_data p quote).portfolio.assets = p.assets.map (refreshAsset quote)
    ∧ (create_net_worth_snapshot p quote sid date).1.assets =
        p.assets.map (refreshAsset quote) := by
  have hmerge : mergeAssetFields {} a = a := rfl
  refine ⟨?_, ?_, rfl, rfl⟩
  · rcases hty with h1 | h1 <;>
      simp [refreshAsset, hs, hm, hq, h1, truthyStr, truthyNum, hs2, hq2, hp]
  · rcases hty with h1 | h1 <;>
      simp [applyAssetUpdate, hmerge, hm, hs, hq, h1, truthyStr, truthyNum, hs2, hq2, hp]

/-- C2 counterexample: a stock asset with a PRESENT quantity of 0, a positive
quote and no override keeps its stored value 5; the claim as stated would
require `value = price * 0 = 0`. -/
theorem C2_counterexample :
    zeroQuantityStock.type = "stock" ∧ zeroQuantityStock.manual_value = none
    ∧ zeroQuantityStock.symbol = some "A" ∧ zeroQuantityStock.quantity = some 0
    ∧ 0 < tenQuote "A"
    ∧ (refreshAsset tenQuote zeroQuantityStock).value ≠ tenQuote "A" * 0 := by
  refine ⟨rfl, rfl, rfl, rfl, by norm_num [tenQuote], ?_⟩
  norm_num [refreshAsset, zeroQuantityStock, truthyStr, truthyNum, tenQuote]

/-- C2 witness: with quote 10 and quantity 3, the refreshed value is 30. -/
theorem C2_witness : (refreshAsset tenQuote sampleStock).value = 30 := by
  have h := (C2_pricing_formula samplePortfolio tenQuote sampleStock "A" 3 "s" "d"
    (Or.inl rfl) rfl rfl (by decide) rfl (by norm_num) (by norm_num [tenQuote])).1
  rw [h]
  norm_num [tenQuote]

/-- C3: stale-on-failure.  For a stock/etf asset with no manual override
whose quote resolves to a non-positive price (or whose symbol is absent), the
valuation pass used by `get_portfolio_data` and `create_net_worth_snapshot`
leaves the asset exactly as stored. -/
theorem C3_stale_on_failure (p : Portfolio) (quote : String → ℚ) (a : Asset)
    (sid date : String)
    (_hty : a.type = "stock" ∨ a.type = "etf") (_hm : a.manual_value = none)
    (hq : ∀ s, a.symbol = some s → quote s ≤ 0) :
    refreshAsset quote a = a
    ∧ (get_portfolio_data p quote).portfolio.assets = p.assets.map (refreshAsset quote)
    ∧ (create_net_worth_snapshot p quote sid date).1.assets =
        p.assets.map (refreshAsset quote) := by
  refine ⟨?_, rfl, rfl⟩
  cases hsym : a.symbol with
  | none => simp [refreshAsset, hsym, truthyStr]
  | some s =>
    simp only [refreshAsset, hsym, Option.getD_some]
    split
    · rw [if_neg]
      rintro ⟨hp, -⟩
      exact absurd hp (not_lt.mpr (hq s hsym))
    · rfl

/-- C3 witness: with every quote unavailable (price 0), the sample stock is
left exactly as stored. -/
theorem C3_witness : refreshAsset noQuote sampleStock = sampleStock :=
  (C3_stale_on_failure samplePortfolio noQuote sampleStock "s" "d" (Or.inl rfl) rfl
    (fun _ _ => le_refl 0)).1

/-- C9: partial goal update frame.  When the goals list splits as
`pre ++ g :: post` with no id-match in `pre` and `g.id = gid`, exactly `g` is
replaced by the field-merge `applyGoalUpdate gr g`: supplied fields replace,
absent fields keep their prior values, the id and every other goal (and the
assets) are unchanged. -/
theorem C9_partial_goal_update (p : Portfolio) (gid : String) (gr : GoalUpdateReq)
    (pre post : List SavingsGoal) (g : SavingsGoal)
    (hsplit : p.savings_goals = pre ++ g :: post)
    (hpre : ∀ x ∈ pre, x.id ≠ gid) (hid : g.id = gid) :
    (update_savings_goal p gid gr).savings_goals = pre ++ applyGoalUpdate gr g :: post
    ∧ (update_savings_goal p gid gr).assets = p.assets
    ∧ (applyGoalUpdate gr g).id = g.id
    ∧ (∀ v, gr.name = some v → (applyGoalUpdate gr g).name = v)
    ∧ (gr.name = none → (applyGoalUpdate gr g).name = g.name)
    ∧ (∀ v, gr.target_amount = some v → (applyGoalUpdate gr g).target_amount = v)
    ∧ (gr.target_amount = none →
        (applyGoalUpdate gr g).target_amount = g.target_amount)
    ∧ (∀ v, gr.current_amount = some v → (applyGoalUpdate gr g).current_amount = v)
    ∧ (gr.current_amount = none →
        (applyGoalUpdate gr g).current_amount = g.current_amount)
    ∧ (∀ v, gr.deadline = some v → (applyGoalUpdate gr g).deadline = v)
    ∧ (gr.deadline = none → (applyGoalUpdate gr g).deadline = g.deadline) := by
  refine ⟨?_, rfl, rfl, ?_, ?_, ?_, ?_, ?_, ?_, ?_, ?_⟩
  · unfold update_savings_goal
    rw [hsplit, updateFirst_append _ _ _ _ _ (fun y hy => by simpa using hpre y hy)
      (by simpa using hid)]
  · intro v h
    simp [applyGoalUpdate, h]
  · intro h
    simp [applyGoalUpdate, h]
  · intro v h
    simp [applyGoalUpdate, h]
  · intro h
    simp [applyGoalUpdate, h]
  · intro v h
    simp [applyGoalUpdate, h]
  · intro h
    simp [applyGoalUpdate, h]
  · intro v h
    simp [applyGoalUpdate, h]
  · intro h
    simp [applyGoalUpdate, h]

/-- C9 witness: updating goal "g1" with only `current_amount` supplied
replaces exactly that goal by its field-merge. -/
theorem C9_witness :
    (update_savings_goal samplePortfolio "g1" goalCurrentReq).savings_goals =
      [applyGoalUpdate goalCurrentReq sampleGoal] :=
  (C9_partial_goal_update samplePortfolio "g1" goalCurrentReq [] [] sampleGoal rfl
    (fun x hx => absurd hx (List.not_mem_nil x)) rfl).1

theorem create_snapshot_history (p : Portfolio) (quote : String → ℚ)
    (sid date : String) :
    (create_net_worth_snapshot p quote sid date).1.net_worth_history =
      (if (p.net_worth_history ++ [(create_net_worth_snapshot p quote sid date).2]).length > 100
       then (p.net_worth_history ++ [(create_net_worth_snapshot p quote sid date).2]).drop
         ((p.net_worth_history ++ [(create_net_worth_snapshot p quote sid date).2]).length - 100)
       else p.net_worth_history ++ [(create_net_worth_snapshot p quote sid date).2]) := rfl

theorem trim_length {α : Type} (l : List α) (s : α) :
    (if (l ++ [s]).length > 100 then (l ++ [s]).drop ((l ++ [s]).length - 100)
     else l ++ [s]).length = min (l.length + 1) 100 := by
  by_cases h : (l ++ [s]).length > 100
  · rw [if_pos h, List.length_drop]
    simp only [List.length_append, List.length_singleton] at h ⊢
    omega
  · rw [if_neg h]
    simp only [List.length_append, List.length_singleton] at h ⊢
    omega

theorem trim_getLast {α : Type} (l : List α) (s : α) :
    (if (l ++ [s]).length > 100 then (l ++ [s]).drop ((l ++ [s]).length - 100)
     else l ++ [s]).getLast? = some s := by
  by_cases h : (l ++ [s]).length > 100
  · rw [if_pos h]
    have hn : (l ++ [s]).length - 100 ≤ l.length := by
      simp only [List.length_append, List.length_singleton] at h ⊢
      omega
    rw [List.drop_append_of_le_length hn]
    exact List.getLast?_concat _
  · rw [if_neg h]
    exact List.getLast?_concat _

theorem trim_exact {α : Type} (s x : α) (rest : List α) (h99 : rest.length = 99) :
    (if ((x :: rest) ++ [s]).length > 100
     then ((x :: rest) ++ [s]).drop (((x :: rest) ++ [s]).length - 100)
     else (x :: rest) ++ [s]) = rest ++ [s] := by
  have hlen2 : ((x :: rest) ++ [s]).length = 101 := by
    simp [List.length_append, h99]
  rw [hlen2, if_pos (by omega)]
  norm_num

/-- C5: bounded FIFO retention.  `create_net_worth_snapshot` appends the new
snapshot at the end and caps the history at the most recent 100 entries
(`length = min (old + 1) 100`); every other operation leaves the history
untouched; and on a portfolio whose history already has 100 entries
(`h0 :: rest` with 99 others), the new history is exactly `rest` plus the
new snapshot: 100 entries, the oldest entry's id gone. -/
theorem C5_bounded_fifo (p p0 : Portfolio) (h0 : NetWorthSnapshot)
    (rest : List NetWorthSnapshot) (quote : String → ℚ) (sid date aid gid : String)
    (r : AssetCreateReq) (ur : AssetUpdateReq) (gr : GoalCreateReq)
    (gur : GoalUpdateReq)
    (hself : p.net_worth_history = h0 :: rest) (hlen : rest.length = 99)
    (hfresh : ∀ x ∈ rest, x.id ≠ h0.id) (hsid : sid ≠ h0.id) :
    (create_net_worth_snapshot p0 quote sid date).1.net_worth_history.length =
        min (p0.net_worth_history.length + 1) 100
    ∧ (create_net_worth_snapshot p0 quote sid date).1.net_worth_history.getLast? =
        some (create_net_worth_snapshot p0 quote sid date).2
    ∧ (add_asset p0 r aid quote).net_worth_history = p0.net_worth_history
    ∧ (delete_asset p0 aid).net_worth_history = p0.net_worth_history
    ∧ (update_asset p0 aid ur quote).net_worth_history = p0.net_worth_history
    ∧ (add_savings_goal p0 gr gid).net_worth_history = p0.net_worth_history
    ∧ (update_savings_goal p0 gid gur).net_worth_history = p0.net_worth_history
    ∧ (delete_savings_goal p0 gid).net_worth_history = p0.net_worth_history
    ∧ (get_portfolio_data p0 quote).portfolio.net_worth_history = p0.net_worth_history
    ∧ (create_net_worth_snapshot p quote sid date).1.net_worth_history =
        rest ++ [(create_net_worth_snapshot p quote sid date).2]
    ∧ (create_net_worth_snapshot p quote sid date).1.net_worth_history.length = 100
    ∧ (∀ x ∈ (create_net_worth_snapshot p quote sid date).1.net_worth_history,
        x.id ≠ h0.id) := by
  have h10 : (create_net_worth_snapshot p quote sid date).1.net_worth_history =
      rest ++ [(create_net_worth_snapshot p quote sid date).2] := by
    rw [create_snapshot_history, hself]
    exact trim_exact _ h0 rest hlen
  refine ⟨?_, ?_, rfl, rfl, rfl, rfl, rfl, rfl, rfl, h10, ?_, ?_⟩
  · rw [create_snapshot_history]
    exact trim_length _ _
  · rw [create_snapshot_history]
    exact trim_getLast _ _
  · rw [h10]
    simp [List.length_append, hlen]
  · intro x hx
    rw [h10] at hx
    rcases List.mem_append.mp hx with hx1 | hx1
    · exact hfresh x hx1
    · have hx2 : x = (create_net_worth_snapshot p quote sid date).2 := by
        simpa using hx1
      rw [hx2]
      exact hsid

/-- C5 witness: appending a 101st snapshot to a full 100-entry history leaves
exactly 100 entries. -/
theorem C5_witness :
    (create_net_worth_snapshot fullHistoryPortfolio noQuote "s" "d").1.net_worth_history.length
      = 100 :=
  (C5_bounded_fifo fullHistoryPortfolio fullHistoryPortfolio (zeroSnap "a")
    (List.replicate 99 (zeroSnap "b")) noQuote "s" "d" "a3" "g1"
    savingsWithOverrideReq {} { name := "g", target_amount := 1 } {} rfl
    (List.length_replicate 99 _)
    (fun x hx => by rw [List.eq_of_mem_replicate hx]; decide) (by decide)).2.2.2.2.2.2.2.2.2.2.1

/-- C10 (implicit): unknown-class exclusion.  An asset whose type is outside
the four known classes contributes to none of the per-class totals and so
not to net worth, in both `get_portfolio_data` and
`create_net_worth_snapshot`; net worth equals the sum over known-class
assets only. -/
theorem C10_unknown_class_exclusion (p : Portfolio) (quote : String → ℚ)
    (sid date : String) (pre post : List Asset) (a : Asset)
    (hsplit : p.assets = pre ++ a :: post) (hunk : a.type ∉ knownTypes) :
    (get_portfolio_data p quote).totals =
        (get_portfolio_data { p with assets := pre ++ post } quote).totals
    ∧ (create_net_worth_snapshot p quote sid date).2.net_worth =
        (create_net_worth_snapshot { p with assets := pre ++ post } quote sid date).2.net_worth
    ∧ (get_portfolio_data p quote).totals.net_worth =
        (((p.assets.map (refreshAsset quote)).filter
          (fun x => decide (x.type ∈ knownTypes))).map Asset.value).sum := by
  have hmid : ∀ t : String, a.type ≠ t →
      totalOf t ((pre ++ a :: post).map (refreshAsset quote)) =
        totalOf t ((pre ++ post).map (refreshAsset quote)) := by
    intro t ht
    rw [List.map_append, List.map_cons, totalOf_append,
      totalOf_cons_of_ne t _ _ (by rw [refreshAsset_type]; exact ht),
      ← totalOf_append, ← List.map_append]
  have h1 : a.type ≠ "stock" := fun hc => hunk (by simp [knownTypes, hc])
  have h2 : a.type ≠ "etf" := fun hc => hunk (by simp [knownTypes, hc])
  have h3 : a.type ≠ "super" := fun hc => hunk (by simp [knownTypes, hc])
  have h4 : a.type ≠ "savings" := fun hc => hunk (by simp [knownTypes, hc])
  have htot : computeTotals ((pre ++ a :: post).map (refreshAsset quote)) =
      computeTotals ((pre ++ post).map (refreshAsset quote)) := by
    unfold computeTotals
    rw [hmid "stock" h1, hmid "etf" h2, hmid "super" h3, hmid "savings" h4]
  refine ⟨?_, ?_, ?_⟩
  · show computeTotals (p.assets.map (refreshAsset quote)) =
      computeTotals ((pre ++ post).map (refreshAsset quote))
    rw [hsplit]
    exact htot
  · show (computeTotals (p.assets.map (refreshAsset quote))).net_worth =
      (computeTotals ((pre ++ post).map (refreshAsset quote))).net_worth
    rw [hsplit, htot]
  · show (computeTotals (p.assets.map (refreshAsset quote))).net_worth = _
    exact known_sum (p.assets.map (refreshAsset quote))

/-- C10 witness: on a concrete portfolio holding a stock and a "crypto"
asset of value 42, the totals equal those of the portfolio without the
unknown-class asset. -/
theorem C10_witness :
    (get_portfolio_data mixedPortfolio tenQuote).totals =
      (get_portfolio_data knownOnlyPortfolio tenQuote).totals :=
  (C10_unknown_class_exclusion mixedPortfolio tenQuote "s" "d" [sampleStock] []
    unknownAsset rfl (by decide)).1

end NetWorth
